import Mathlib

/-!
Shallow embedding of the qtek glTF loader (`src/loader/GLTF.js`) and proofs
about the claims of its specification.

JS numbers are modelled as real numbers `ℝ`; JS arrays as Lean lists; the
name-keyed tables (`lib.nodes`, `lib.materials`, ...) as functions into
`Option`.  Loops that push onto an array become `List.foldl` with append;
in-place element updates become index-wise maps over disjoint positions.
-/

namespace GLTF

/-- A skeleton joint, as constructed by `_parseSkins`.
The `Joint` value type itself lives outside the loader source; its
constructor stores exactly the fields passed in, with the remaining fields
left at their defaults (modelled as `none` / `-1`). -/
structure Joint where
  name : Option String := none
  index : Int := -1
  parentIndex : Int := -1
  node : Option String := none
  rootNode : Option String := none
deriving DecidableEq, Repr

/-- The loop of `_parseSkins` that creates the skeleton's joints: for each
entry of `skinInfo.joints`, push `new Joint({name: jointId, index:
skeleton.joints.length})` onto `skeleton.joints` (GLTF.js:314-321). -/
def mkSkeletonJoints (jointIds : List String) : List Joint :=
  jointIds.foldl
    (fun joints jointId =>
      joints ++ [{ name := some jointId, index := (joints.length : Int) }])
    []

/-- Helper: the joint list built from a given starting index. -/
def mkJointsFrom (start : Nat) : List String → List Joint
  | [] => []
  | jointId :: rest =>
      { name := some jointId, index := (start : Int) } :: mkJointsFrom (start + 1) rest

theorem mkJointsFrom_length (start : Nat) (ids : List String) :
    (mkJointsFrom start ids).length = ids.length := by
  induction ids generalizing start with
  | nil => rfl
  | cons x xs ih => simp [mkJointsFrom, ih]

theorem mkSkeletonJoints_foldl (ids : List String) (acc : List Joint) :
    ids.foldl
      (fun joints jointId =>
        joints ++ [{ name := some jointId, index := (joints.length : Int) }])
      acc = acc ++ mkJointsFrom acc.length ids := by
  induction ids generalizing acc with
  | nil => simp [mkJointsFrom]
  | cons x xs ih =>
      simp only [List.foldl_cons, mkJointsFrom]
      rw [ih]
      simp

theorem mkSkeletonJoints_eq (ids : List String) :
    mkSkeletonJoints ids = mkJointsFrom 0 ids := by
  simpa using mkSkeletonJoints_foldl ids []

theorem mkJointsFrom_get (start : Nat) (ids : List String) (i : Nat)
    (h : i < (mkJointsFrom start ids).length) :
    ((mkJointsFrom start ids).get ⟨i, h⟩).index = (start + i : Nat) := by
  induction ids generalizing start i with
  | nil => simp [mkJointsFrom] at h
  | cons x xs ih =>
      cases i with
      | zero => simp [mkJointsFrom]
      | succ j =>
          have h' : j < (mkJointsFrom (start + 1) xs).length := by
            simpa [mkJointsFrom] using h
          have := ih (start + 1) j h'
          simpa [mkJointsFrom, Nat.add_comm, Nat.add_left_comm] using this

mutual
/-- The relevant part of a node descriptor for the joint-binding walk:
its name, its optional `jointId`, and its children (GLTF.js:340-367).
`NodeTree`/`NodeForest` model the acyclic `json.nodes` hierarchy reached
from a skin's root node. -/
inductive NodeTree where
  | mk (name : String) (jointId : Option String) (children : NodeForest)
deriving DecidableEq, Repr
inductive NodeForest where
  | nil
  | cons (t : NodeTree) (f : NodeForest)
deriving DecidableEq, Repr
end

def NodeTree.name : NodeTree → String
  | .mk n _ _ => n

/-- The `jointsMap` built at GLTF.js:421-425: joint name → joint. -/
def JointsMap := List (String × Joint)

def lookupJoint (m : JointsMap) (k : String) : Option Joint :=
  (List.find? (fun p => p.1 = k) m).map (fun p => p.2)

def updateJoint (m : JointsMap) (k : String) (j : Joint) : JointsMap :=
  List.map (fun p => if p.1 = k then (k, j) else p) m

mutual
/-- `bindNodeToJoint` (GLTF.js:340-367).  The in-place mutation of a matched
joint becomes an update of the joints map, threaded through the recursion;
the JS `return joint` returns a reference that sees any later mutation by
the subtree walk, so the matched branch returns the final map's entry for
that joint id. Both branches of the source return a `Joint` object (matched,
or the synthetic `new Joint(...)` of the else branch), so the model's return
type is a `Joint`, never an absent value. -/
def bindNodeToJoint (m : JointsMap) :
    NodeTree → Int → String → JointsMap × Joint
  | .mk name jid children, parentIndex, rootNode =>
    match jid with
    | some k =>
      match lookupJoint m k with
      | some j =>
          let j' : Joint :=
            { j with node := some name, parentIndex := parentIndex,
                     rootNode := some rootNode }
          let m' := updateJoint m k j'
          let m'' := bindForest m' children j.index rootNode
          (m'', ((lookupJoint m'' k).getD j'))
      | none =>
          let j : Joint :=
            { node := some name, rootNode := some rootNode,
              parentIndex := parentIndex }
          (bindForest m children parentIndex rootNode, j)
    | none =>
        let j : Joint :=
          { node := some name, rootNode := some rootNode,
            parentIndex := parentIndex }
        (bindForest m children parentIndex rootNode, j)
def bindForest (m : JointsMap) :
    NodeForest → Int → String → JointsMap
  | .nil, _, _ => m
  | .cons t f, parentIndex, rootNode =>
      bindForest (bindNodeToJoint m t parentIndex rootNode).1 f parentIndex rootNode
end

/-- The loop over a skin's declared root nodes (GLTF.js:427-435): each root
is bound with parent index `-1`, and the guard `if (rootJoint)` pushes the
result onto `skeleton.roots`; since `bindNodeToJoint` always returns a
joint object (truthy in JS), the guard never skips. -/
def pushSkinRoots (m : JointsMap) (roots : List Joint)
    (rootNodes : List NodeTree) : JointsMap × List Joint :=
  rootNodes.foldl
    (fun acc rn =>
      let r := bindNodeToJoint acc.1 rn (-1) rn.name
      (r.1, acc.2 ++ [r.2]))
    (m, roots)

theorem pushSkinRoots_length (m : JointsMap) (roots : List Joint)
    (rns : List NodeTree) :
    ((pushSkinRoots m roots rns).2).length = roots.length + rns.length := by
  induction rns generalizing m roots with
  | nil => simp [pushSkinRoots]
  | cons t f ih =>
      have : pushSkinRoots m roots (t :: f) =
          pushSkinRoots (bindNodeToJoint m t (-1) t.name).1
            (roots ++ [(bindNodeToJoint m t (-1) t.name).2]) f := rfl
      rw [this, ih]
      simp
      omega

/-- C10: `bindNodeToJoint` always returns a Joint: when the visited root
node's joint id is absent from the skin's joints map (or the node has no
joint id), it returns a freshly constructed synthetic Joint carrying the
inherited parent index, the node, and the root node; and the loop over a
skin's declared root node ids pushes exactly one entry onto the skeleton's
roots list per root id, the guard `if (rootJoint)` never skipping. -/
theorem bindNodeToJoint_total_synthetic :
    (∀ (m : JointsMap) (name : String) (jid : Option String)
        (children : NodeForest) (pidx : Int) (root : String),
        (∀ k, jid = some k → lookupJoint m k = none) →
        (bindNodeToJoint m (.mk name jid children) pidx root).2 =
          { node := some name, rootNode := some root, parentIndex := pidx }) ∧
    (∀ (m : JointsMap) (roots : List Joint) (rns : List NodeTree),
        ((pushSkinRoots m roots rns).2).length = roots.length + rns.length) := by
  refine ⟨?_, pushSkinRoots_length⟩
  intro m name jid children pidx root hmiss
  cases jid with
  | none => simp [bindNodeToJoint]
  | some k =>
      have h := hmiss k rfl
      simp [bindNodeToJoint, h]

/-- Witness for C10 at a concrete one-node root whose joint id misses the
(empty) joints map. -/
theorem bindNodeToJoint_total_synthetic_witness :
    (bindNodeToJoint [] (.mk "rootA" (some "j0") .nil) (-1) "rootA").2 =
      { node := some "rootA", rootNode := some "rootA", parentIndex := -1 } ∧
    ((pushSkinRoots [] [] [.mk "rootA" (some "j0") .nil]).2).length = 1 := by
  constructor
  · exact bindNodeToJoint_total_synthetic.1 [] "rootA" (some "j0") .nil (-1) "rootA"
      (fun k hk => by cases hk; rfl)
  · simpa using bindNodeToJoint_total_synthetic.2 []
      [] [NodeTree.mk "rootA" (some "j0") .nil]

/-- C1: for every skin descriptor, the skeleton built by `_parseSkins` has
`skeleton.joints.length` equal to `skinInfo.joints.length`, and for every
position `i`, the joint at position `i` carries `index = i`. -/
theorem parseSkins_joints_indexed (jointIds : List String) :
    (mkSkeletonJoints jointIds).length = jointIds.length ∧
    ∀ i (h : i < (mkSkeletonJoints jointIds).length),
      ((mkSkeletonJoints jointIds).get ⟨i, h⟩).index = (i : Int) := by
  rw [mkSkeletonJoints_eq]
  refine ⟨mkJointsFrom_length 0 jointIds, ?_⟩
  intro i h
  simpa using mkJointsFrom_get 0 jointIds i h

/-- Witness for C1 at a concrete skin with three joints. -/
theorem parseSkins_joints_indexed_witness :
    (mkSkeletonJoints ["hip", "knee", "ankle"]).length = 3 ∧
    ((mkSkeletonJoints ["hip", "knee", "ankle"]).get
      ⟨2, by decide⟩).index = (2 : Int) := by
  refine ⟨by decide, ?_⟩
  have h := (parseSkins_joints_indexed ["hip", "knee", "ankle"]).2 2 (by decide)
  simpa using h

/-- The value stored into `geometry.attributes[attributeName].value` by
`_parseMeshes`: either a freshly allocated copied array, or the uncopied
typed view `attributeArray` over the owning buffer (GLTF.js:701-714). -/
inductive StoredAttribute where
  | copied (w : List ℝ)
  | view (attributeArray : List ℝ)

/-- The copy loop of GLTF.js:704-709: `weightArray` has `count * 3` slots
and `weightArray[i*3+k] = attributeArray[i*4+k]` for `k = 0, 1, 2`.
Out-of-range reads are modelled by `getD _ 0` (well-formed documents never
hit them). -/
def compactWeights (attributeArray : List ℝ) : Nat → List ℝ
  | 0 => []
  | n + 1 =>
      compactWeights attributeArray n ++
        [attributeArray.getD (n * 4) 0,
         attributeArray.getD (n * 4 + 1) 0,
         attributeArray.getD (n * 4 + 2) 0]

/-- The branch at GLTF.js:702-714: `semantic === 'WEIGHT' && size === 4`
stores the compacted copy, anything else stores the view itself. -/
def storeAttributeValue (semantic : String) (size : Nat) (count : Nat)
    (attributeArray : List ℝ) : StoredAttribute :=
  if semantic = "WEIGHT" ∧ size = 4 then
    .copied (compactWeights attributeArray count)
  else
    .view attributeArray

theorem compactWeights_length (a : List ℝ) (count : Nat) :
    (compactWeights a count).length = count * 3 := by
  induction count with
  | zero => rfl
  | succ n ih => simp [compactWeights, ih]; ring

theorem compactWeights_getD (a : List ℝ) (count i k : Nat)
    (hi : i < count) (hk : k < 3) :
    (compactWeights a count).getD (i * 3 + k) 0 = a.getD (i * 4 + k) 0 := by
  induction count with
  | zero => omega
  | succ n ih =>
      by_cases h : i < n
      · have hlen : i * 3 + k < (compactWeights a n).length := by
          rw [compactWeights_length]; omega
        simp only [compactWeights]
        rw [List.getD_append _ _ _ _ hlen]
        exact ih h
      · have hin : i = n := by omega
        subst hin
        have hlen : (compactWeights a i).length ≤ i * 3 + k := by
          rw [compactWeights_length]; omega
        simp only [compactWeights]
        rw [List.getD_append_right _ _ _ _ hlen, compactWeights_length]
        interval_cases k <;> simp [Nat.mul_comm]

/-- C2: a mesh-primitive attribute with semantic `WEIGHT` and decoded
element size 4 is stored as a newly allocated 3-component-per-vertex array
with entries at `3i`, `3i+1`, `3i+2` equal to the source entries at `4i`,
`4i+1`, `4i+2` for every vertex `i`; attributes with other semantics are
stored as the uncopied typed view over the owning buffer. -/
theorem parseMeshes_weight_compaction :
    (∀ (count : Nat) (a : List ℝ),
       storeAttributeValue "WEIGHT" 4 count a =
         .copied (compactWeights a count) ∧
       (compactWeights a count).length = count * 3 ∧
       ∀ i k, i < count → k < 3 →
         (compactWeights a count).getD (i * 3 + k) 0 = a.getD (i * 4 + k) 0) ∧
    (∀ (semantic : String) (size count : Nat) (a : List ℝ),
       semantic ≠ "WEIGHT" →
       storeAttributeValue semantic size count a = .view a) := by
  constructor
  · intro count a
    exact ⟨by simp [storeAttributeValue], compactWeights_length a count,
      fun i k hi hk => compactWeights_getD a count i k hi hk⟩
  · intro semantic size count a h
    simp [storeAttributeValue, h]

/-- Witness for C2: vertex 1 of a 2-vertex weight attribute, and a
`POSITION` attribute stored as a view. -/
theorem parseMeshes_weight_compaction_witness :
    (compactWeights ([1, 2, 3, 4, 5, 6, 7, 8] : List ℝ) 2).getD 3 0 =
      ([1, 2, 3, 4, 5, 6, 7, 8] : List ℝ).getD 4 0 ∧
    storeAttributeValue "POSITION" 3 2 ([1, 2] : List ℝ) = .view [1, 2] := by
  constructor
  · exact (parseMeshes_weight_compaction.1 2 [1, 2, 3, 4, 5, 6, 7, 8]).2.2 1 0
      (by decide) (by decide)
  · exact parseMeshes_weight_compaction.2 "POSITION" 3 2 [1, 2] (by decide)

/-- A camera descriptor (`json.cameras[...]`), as read by `_parseNodes`
(GLTF.js:781-796). -/
structure CameraInfo where
  projection : String
  aspect_ratio : Option ℝ := none
  xfov : Option ℝ := none
  zfar : Option ℝ := none
  znear : Option ℝ := none

/-- Which entity `_parseNodes` substitutes for a node descriptor:
a perspective or orthographic camera, a single light, a container of
lights, a single mesh primitive, a container of primitives, or a plain
transform `Node` (GLTF.js:775-855). -/
inductive EntityKind where
  | perspectiveCamera (aspect fov far near : Option ℝ)
  | orthographicCamera
  | light (id : String)
  | lightGroup (ids : List String)
  | meshPrimitive (key : String)
  | meshGroup (key : String) (count : Nat)
  | generic

/-- A constructed scene-graph node.  Modelled from the spec: a freshly
constructed `Node` (the `Node` value type lives outside the loader source)
starts with the identity transform — translation `(0,0,0)`, quaternion
`(0,0,0,1)`, scale `(1,1,1)`. -/
structure SceneNode where
  kind : EntityKind
  name : Option String := none
  position : List ℝ := [0, 0, 0]
  rotation : List ℝ := [0, 0, 0, 1]
  scale : List ℝ := [1, 1, 1]

/-- A node descriptor (`json.nodes[...]`), restricted to the fields read
by `_parseNodes`.  JS truthiness of the fields is modelled by `Option`
presence (the empty-string / empty-array edge cases of JS truthiness do
not arise in the claims). `instanceSkinSources` is `instanceSkin.sources`. -/
structure NodeDesc where
  name : Option String := none
  camera : Option String := none
  lights : Option (List String) := none
  meshes : Option (List String) := none
  instanceSkinSources : Option (List String) := none
  matrix : Option (List ℝ) := none
  translation : Option (List ℝ) := none
  rotation : Option (List ℝ) := none
  scale : Option (List ℝ) := none

/-- The camera branch of `_parseNodes` (GLTF.js:783-797): `perspective`
projections build a `PerspectiveCamera` from the descriptor's fields; any
other projection kind builds `new OrthographicCamera()` and emits the
`console.warn('TODO:Orthographic camera')` warning (the Boolean of the
result). -/
def parseCameraNode (info : NodeDesc) (ci : CameraInfo) : SceneNode × Bool :=
  if ci.projection = "perspective" then
    ({ kind := .perspectiveCamera ci.aspect_ratio ci.xfov ci.zfar ci.znear,
       name := info.name }, false)
  else
    ({ kind := .orthographicCamera, name := info.name }, true)

/-- The light types `_parseLight` recognizes (GLTF.js:898-919); any other
type is warned about and yields no light entity. -/
def knownLightTypes : List String := ["point", "spot", "directional"]

/-- The variant-selection chain of `_parseNodes` (GLTF.js:780-855):
camera, then lights, then meshes/instanceSkin, then generic; each branch
gated by the corresponding `include*` flag.  `.error ()` models a thrown
JS `TypeError` (member access on `undefined`); `.ok none` models the
`node` variable being left `undefined`.  `cameras`, `lights` (id → light
type) and `libMeshes` (mesh key → primitive list) model `json.cameras`,
`json.lights` and `lib.meshes`. -/
def selectNodeVariant (cameras : String → Option CameraInfo)
    (lights : String → Option String)
    (libMeshes : String → Option (List String))
    (includeCamera includeLight includeMesh : Bool)
    (info : NodeDesc) : Except Unit (Option SceneNode) :=
  match info.camera, includeCamera with
  | some camId, true =>
    match cameras camId with
    | none => .error ()
    | some ci => .ok (some (parseCameraNode info ci).1)
  | _, _ =>
  match info.lights, includeLight with
  | some lightIds, true =>
    if lightIds.any (fun id => (lights id).isNone) then .error ()
    else
      let kept := lightIds.filter (fun id =>
        match lights id with
        | some t => knownLightTypes.contains t
        | none => false)
      if kept.length = 1 then
        .ok (some { kind := .light (kept.headD ""), name := info.name })
      else
        .ok (some { kind := .lightGroup kept, name := info.name })
  | _, _ =>
  if (info.meshes.isSome || info.instanceSkinSources.isSome) && includeMesh then
    let meshKey : Option String :=
      match info.meshes with
      | some l => l.head?
      | none => (info.instanceSkinSources.getD []).head?
    match meshKey with
    | none => .ok none
    | some k =>
      match libMeshes k with
      | none => .ok none
      | some prims =>
        if prims.length = 1 then
          .ok (some { kind := .meshPrimitive k, name := info.name })
        else
          .ok (some { kind := .meshGroup k prims.length, name := info.name })
  else
    .ok (some { kind := .generic, name := info.name })

/-- The transform application of `_parseNodes` (GLTF.js:856-877): a
`matrix` field sets the local transform and decomposes it into
translation/rotation/scale (`decompose` models the external
`decomposeLocalTransform` math operation); otherwise each of
`translation`, `rotation`, `scale` is copied onto the node when present. -/
def applyNodeTransform (decompose : List ℝ → List ℝ × List ℝ × List ℝ)
    (info : NodeDesc) (node : SceneNode) : SceneNode :=
  match info.matrix with
  | some m =>
      { node with position := (decompose m).1,
                  rotation := (decompose m).2.1,
                  scale := (decompose m).2.2 }
  | none =>
      { node with
          position := info.translation.getD node.position,
          rotation := info.rotation.getD node.rotation,
          scale := info.scale.getD node.scale }

/-- One node descriptor through `_parseNodes`: variant selection followed
by the transform application; when the variant chain left `node`
undefined, any present transform field makes GLTF.js:856-877 access a
member of `undefined`, which throws and aborts the parse (`.error ()`). -/
def parseNode (cameras : String → Option CameraInfo)
    (lights : String → Option String)
    (libMeshes : String → Option (List String))
    (decompose : List ℝ → List ℝ × List ℝ × List ℝ)
    (includeCamera includeLight includeMesh : Bool)
    (info : NodeDesc) : Except Unit (Option SceneNode) :=
  match selectNodeVariant cameras lights libMeshes
      includeCamera includeLight includeMesh info with
  | .error e => .error e
  | .ok none =>
      if info.matrix.isSome || info.translation.isSome ||
         info.rotation.isSome || info.scale.isSome then
        .error ()
      else
        .ok none
  | .ok (some n) => .ok (some (applyNodeTransform decompose info n))

/-- The material resolved for a mesh primitive by `_parseMeshes`
(GLTF.js:743-749): the library entry when the reference resolves, else a
freshly constructed default material. -/
inductive MaterialRef where
  | fromLib (id : String)
  | defaultMaterial
deriving DecidableEq, Repr

/-- GLTF.js:743-749: `var material = lib.materials[primitiveInfo.material];
if (!material) material = new Material({shader: ...default...})`. -/
def resolvePrimitiveMaterial (materials : String → Option MaterialRef)
    (matId : String) : MaterialRef :=
  match materials matId with
  | some m => m
  | none => .defaultMaterial

/-- C3: a node descriptor with a `matrix` field gets its transform from the
decomposed matrix, and co-present translation/rotation/scale fields have no
effect on the result; without a `matrix` field, translation, rotation and
scale are each applied independently when present and left at the identity
default when absent. -/
theorem parseNodes_matrix_precedence :
    (∀ (decompose : List ℝ → List ℝ × List ℝ × List ℝ) (info : NodeDesc)
        (n : SceneNode) (m : List ℝ), info.matrix = some m →
        applyNodeTransform decompose info n =
          { n with position := (decompose m).1,
                   rotation := (decompose m).2.1,
                   scale := (decompose m).2.2 } ∧
        ∀ t r s, applyNodeTransform decompose
            { info with translation := t, rotation := r, scale := s } n =
          applyNodeTransform decompose info n) ∧
    (∀ (decompose : List ℝ → List ℝ × List ℝ × List ℝ) (info : NodeDesc)
        (k : EntityKind) (nm : Option String), info.matrix = none →
        (applyNodeTransform decompose info { kind := k, name := nm }).position =
          info.translation.getD [0, 0, 0] ∧
        (applyNodeTransform decompose info { kind := k, name := nm }).rotation =
          info.rotation.getD [0, 0, 0, 1] ∧
        (applyNodeTransform decompose info { kind := k, name := nm }).scale =
          info.scale.getD [1, 1, 1]) := by
  constructor
  · intro decompose info n m h
    constructor
    · simp [applyNodeTransform, h]
    · intro t r s
      simp [applyNodeTransform, h]
  · intro decompose info k nm h
    refine ⟨?_, ?_, ?_⟩ <;> simp [applyNodeTransform, h]

/-- Witness for C3 at a concrete descriptor carrying both a matrix and a
translation, and at one carrying only a translation. -/
theorem parseNodes_matrix_precedence_witness :
    applyNodeTransform (fun _ => ([7, 8, 9], [0, 1, 0, 0], [2, 2, 2]))
        { matrix := some (List.replicate 16 1), translation := some [5, 5, 5] }
        { kind := .generic } =
      { kind := .generic, position := [7, 8, 9], rotation := [0, 1, 0, 0],
        scale := [2, 2, 2] } ∧
    (applyNodeTransform (fun _ => ([7, 8, 9], [0, 1, 0, 0], [2, 2, 2]))
        { translation := some [4, 4, 4] } { kind := .generic }).position =
      [4, 4, 4] := by
  constructor
  · have h := (parseNodes_matrix_precedence.1
      (fun _ => ([7, 8, 9], [0, 1, 0, 0], [2, 2, 2]))
      { matrix := some (List.replicate 16 1), translation := some [5, 5, 5] }
      { kind := .generic } (List.replicate 16 1) rfl).1
    simpa using h
  · have h := (parseNodes_matrix_precedence.2
      (fun _ => ([7, 8, 9], [0, 1, 0, 0], [2, 2, 2]))
      { translation := some [4, 4, 4] } .generic none rfl).1
    simpa using h

/-- C7 counterexample: a node referencing a camera with the unsupported
projection kind `"fisheye"` is substituted by an `OrthographicCamera`
node (with the warning emitted), not by a generic transform node as the
claim states. -/
theorem camera_fallback_counterexample :
    (parseCameraNode { name := some "camNode" }
        { projection := "fisheye" }).1.kind = EntityKind.orthographicCamera ∧
    (parseCameraNode { name := some "camNode" }
        { projection := "fisheye" }).2 = true ∧
    EntityKind.orthographicCamera ≠ EntityKind.generic := by
  refine ⟨by simp [parseCameraNode], by simp [parseCameraNode], by simp⟩

/-- C7 (amended): a node referencing a camera whose projection kind is not
`"perspective"` gets a warning and an `OrthographicCamera` node
substituted (not a generic transform node). -/
theorem camera_fallback_orthographic
    (cameras : String → Option CameraInfo) (lights : String → Option String)
    (libMeshes : String → Option (List String))
    (decompose : List ℝ → List ℝ × List ℝ × List ℝ)
    (includeLight includeMesh : Bool)
    (info : NodeDesc) (camId : String) (ci : CameraInfo)
    (hcam : info.camera = some camId) (hci : cameras camId = some ci)
    (hproj : ci.projection ≠ "perspective") :
    parseCameraNode info ci =
      ({ kind := .orthographicCamera, name := info.name }, true) ∧
    parseNode cameras lights libMeshes decompose true includeLight
        includeMesh info =
      .ok (some (applyNodeTransform decompose info
        { kind := .orthographicCamera, name := info.name })) := by
  constructor
  · simp [parseCameraNode, hproj]
  · simp [parseNode, selectNodeVariant, hcam, hci, parseCameraNode, hproj]

/-- Witness for the amended C7 at a concrete unsupported projection. -/
theorem camera_fallback_orthographic_witness :
    parseCameraNode { camera := some "c0", name := some "n" }
        { projection := "fisheye" } =
      ({ kind := .orthographicCamera, name := some "n" }, true) ∧
    parseNode (fun _ => some { projection := "fisheye" }) (fun _ => none)
        (fun _ => none) (fun _ => ([0, 0, 0], [0, 0, 0, 1], [1, 1, 1]))
        true true true { camera := some "c0", name := some "n" } =
      .ok (some (applyNodeTransform
        (fun _ => ([0, 0, 0], [0, 0, 0, 1], [1, 1, 1]))
        { camera := some "c0", name := some "n" }
        { kind := .orthographicCamera, name := some "n" })) :=
  camera_fallback_orthographic (fun _ => some { projection := "fisheye" })
    (fun _ => none) (fun _ => none)
    (fun _ => ([0, 0, 0], [0, 0, 0, 1], [1, 1, 1])) true true
    { camera := some "c0", name := some "n" } "c0"
    { projection := "fisheye" } rfl rfl (by decide)

/-- C8 counterexample: a node descriptor whose only mesh reference is
dangling (no `lib.meshes` entry) and which carries a `matrix` leaves the
`node` variable undefined, so the transform application at GLTF.js:856-858
accesses a member of `undefined` and throws, aborting the whole parse —
contradicting the claim that an unresolved mesh reference never aborts
the parse. -/
theorem dangling_mesh_reference_counterexample :
    parseNode (fun _ => none) (fun _ => none) (fun _ => none)
      (fun _ => ([0, 0, 0], [0, 0, 0, 1], [1, 1, 1])) true true true
      { meshes := some ["missingMesh"],
        matrix := some (List.replicate 16 1) } = .error () := by
  rfl

/-- C8 (amended): a primitive whose material id is unresolved receives a
freshly constructed default material; but a node whose mesh reference is
unresolved is left undefined, and when its descriptor also carries a
transform field the transform application throws, aborting the whole
parse. -/
theorem dangling_reference_handling :
    (∀ (materials : String → Option MaterialRef) (matId : String),
        materials matId = none →
        resolvePrimitiveMaterial materials matId = .defaultMaterial) ∧
    (∀ (cameras : String → Option CameraInfo) (lights : String → Option String)
        (libMeshes : String → Option (List String))
        (decompose : List ℝ → List ℝ × List ℝ × List ℝ)
        (includeCamera includeLight : Bool) (info : NodeDesc)
        (k : String) (rest : List String),
        info.camera = none → info.lights = none →
        info.meshes = some (k :: rest) → libMeshes k = none →
        (info.matrix.isSome || info.translation.isSome ||
          info.rotation.isSome || info.scale.isSome) = true →
        parseNode cameras lights libMeshes decompose includeCamera
          includeLight true info = .error ()) := by
  constructor
  · intro materials matId h
    simp [resolvePrimitiveMaterial, h]
  · intro cameras lights libMeshes decompose includeCamera includeLight
      info k rest hcam hlights hmeshes hlib hmat
    cases includeCamera <;>
      simp [parseNode, selectNodeVariant, hcam, hlights, hmeshes, hlib, hmat]

/-- Witness for the amended C8 at concrete inputs. -/
theorem dangling_reference_handling_witness :
    resolvePrimitiveMaterial (fun _ => none) "missingMat" =
      .defaultMaterial ∧
    parseNode (fun _ => none) (fun _ => none) (fun _ => none)
      (fun _ => ([0, 0, 0], [0, 0, 0, 1], [1, 1, 1])) true true true
      { meshes := some ["missingMesh"], translation := some [1, 2, 3] } =
      .error () := by
  constructor
  · exact dangling_reference_handling.1 (fun _ => none) "missingMat" rfl
  · exact dangling_reference_handling.2 (fun _ => none) (fun _ => none)
      (fun _ => none) (fun _ => ([0, 0, 0], [0, 0, 0, 1], [1, 1, 1]))
      true true
      ({ meshes := some ["missingMesh"], translation := some [1, 2, 3] })
      "missingMesh" [] rfl rfl rfl rfl rfl

/-- The glossiness/roughness/shininess uniforms of a resolved material
(`material.set(...)` calls of GLTF.js:601-611); `none` = never set. -/
structure MaterialShading where
  glossiness : Option ℝ := none
  roughness : Option ℝ := none
  shininess : Option ℝ := none

/-- GLTF.js:601-611: when the resolved uniforms carry a shininess value,
store `glossiness = Math.log(shininess)/Math.log(8192)`, `roughness = 1 -
glossiness` and the raw shininess; otherwise store `glossiness = 0.5` and
`shininess = 0.5` (and leave roughness unset). -/
noncomputable def resolveShininess (shininessUniform : Option ℝ)
    (m : MaterialShading) : MaterialShading :=
  match shininessUniform with
  | some s =>
      let glossiness := Real.log s / Real.log 8192
      { m with glossiness := some glossiness,
               roughness := some (1 - glossiness),
               shininess := some s }
  | none => { m with glossiness := some 0.5, shininess := some 0.5 }

/-- C6: a material whose resolved uniforms contain a shininess value `s`
stores `glossiness = log s / log 8192`, `roughness = 1 - glossiness`, and
the raw `s`; a material whose uniforms lack shininess stores `glossiness =
0.5` and `shininess = 0.5`. -/
theorem parseMaterials_shininess :
    (∀ (m : MaterialShading) (s : ℝ),
        (resolveShininess (some s) m).glossiness =
          some (Real.log s / Real.log 8192) ∧
        (resolveShininess (some s) m).roughness =
          some (1 - Real.log s / Real.log 8192) ∧
        (resolveShininess (some s) m).shininess = some s) ∧
    (∀ m : MaterialShading,
        (resolveShininess none m).glossiness = some 0.5 ∧
        (resolveShininess none m).shininess = some 0.5) := by
  exact ⟨fun m s => ⟨rfl, rfl, rfl⟩, fun m => ⟨rfl, rfl⟩⟩

/-- A uniform value in a material descriptor's `values` table: a string
(texture name), a number, a numeric array, an already-substituted texture
object, or `null`. -/
inductive UniformValue where
  | str (s : String)
  | num (x : ℝ)
  | arr (xs : List ℝ)
  | tex (name : String)
  | null

/-- A legacy `instanceTechnique` object; `none` fields are keys absent
from the object (a `for (var key in ...)` loop copies only present
keys). -/
structure InstanceTechnique where
  technique : Option String := none
  values : Option (List (String × UniformValue)) := none

/-- A material descriptor (`json.materials[...]`), restricted to the
fields `_parseMaterials` reads and writes. -/
structure MaterialInfo where
  name : Option String := none
  technique : Option String := none
  values : List (String × UniformValue) := []
  instanceTechnique : Option InstanceTechnique := none

/-- GLTF.js:516-521: when the descriptor carries an `instanceTechnique`,
every key of it is copied onto the material descriptor itself and the
`instanceTechnique` field is then set to `null`. -/
def mergeInstanceTechnique (mi : MaterialInfo) : MaterialInfo :=
  match mi.instanceTechnique with
  | some it =>
      { mi with
          technique := match it.technique with
            | some t => some t
            | none => mi.technique,
          values := it.values.getD mi.values,
          instanceTechnique := none }
  | none => mi

/-- GLTF.js:525-537: `uniforms` aliases `materialInfo.values`, and every
string-valued uniform is replaced in place by the texture of that name
when `lib.textures` has one, else by `null`. -/
def substituteTextureUniforms (textures : String → Bool)
    (vals : List (String × UniformValue)) : List (String × UniformValue) :=
  vals.map (fun kv =>
    match kv.2 with
    | .str s => (kv.1, if textures s then .tex s else .null)
    | _ => kv)

/-- The net effect of `_parseMaterials` on one material descriptor of the
document (GLTF.js:510-537): merge `instanceTechnique`, then substitute
texture-valued uniforms in place. -/
def materialInfoAfterParse (textures : String → Bool)
    (mi : MaterialInfo) : MaterialInfo :=
  let mi' := mergeInstanceTechnique mi
  { mi' with values := substituteTextureUniforms textures mi'.values }

/-- C9 counterexample: a material descriptor whose `diffuse` uniform is
the (unresolvable) texture name `"tex0"` is mutated by the parse — the
string value is replaced by `null` in the descriptor itself — so the
document is not left unchanged. -/
theorem document_mutation_counterexample :
    materialInfoAfterParse (fun _ => false)
        { values := [("diffuse", .str "tex0")] } ≠
      { values := [("diffuse", .str "tex0")] } := by
  simp [materialInfoAfterParse, mergeInstanceTechnique,
    substituteTextureUniforms]

theorem substituteTextureUniforms_id (textures : String → Bool)
    (vals : List (String × UniformValue))
    (h : ∀ kv ∈ vals, ∀ s, kv.2 ≠ UniformValue.str s) :
    substituteTextureUniforms textures vals = vals := by
  induction vals with
  | nil => rfl
  | cons kv rest ih =>
      have hkv := h kv (List.mem_cons_self kv rest)
      have hrest := ih (fun kv' hm => h kv' (List.mem_cons_of_mem kv hm))
      obtain ⟨k, v⟩ := kv
      cases v with
      | str s => exact absurd rfl (hkv s)
      | num x => simpa [substituteTextureUniforms] using hrest
      | arr xs => simpa [substituteTextureUniforms] using hrest
      | tex n => simpa [substituteTextureUniforms] using hrest
      | null => simpa [substituteTextureUniforms] using hrest

/-- C9 (amended): the parse does not leave the document unchanged — it
mutates material descriptors in place: `instanceTechnique` keys are merged
into the descriptor and the field nulled, and string-valued uniforms are
replaced by the looked-up texture or `null`; a material descriptor with no
`instanceTechnique` and no string-valued uniforms is the only kind left
unchanged. -/
theorem parseMaterials_descriptor_mutation :
    (∀ (textures : String → Bool) (mi : MaterialInfo),
        mi.instanceTechnique = none →
        (∀ kv ∈ mi.values, ∀ s, kv.2 ≠ UniformValue.str s) →
        materialInfoAfterParse textures mi = mi) ∧
    (∀ (textures : String → Bool) (mi : MaterialInfo)
        (it : InstanceTechnique) (t : String),
        mi.instanceTechnique = some it → it.technique = some t →
        (materialInfoAfterParse textures mi).instanceTechnique = none ∧
        (materialInfoAfterParse textures mi).technique = some t) ∧
    (∀ (textures : String → Bool) (mi : MaterialInfo),
        (materialInfoAfterParse textures mi).values =
          substituteTextureUniforms textures
            (mergeInstanceTechnique mi).values) := by
  refine ⟨?_, ?_, fun textures mi => rfl⟩
  · intro textures mi hit hvals
    obtain ⟨nm, tq, vals, itq⟩ := mi
    subst hit
    simp [materialInfoAfterParse, mergeInstanceTechnique,
      substituteTextureUniforms_id textures vals hvals]
  · intro textures mi it t hit ht
    constructor <;>
      simp [materialInfoAfterParse, mergeInstanceTechnique, hit, ht]

/-- Witness for the amended C9 at concrete material descriptors. -/
theorem parseMaterials_descriptor_mutation_witness :
    materialInfoAfterParse (fun _ => true)
        { values := [("alpha", .null)] } =
      { values := [("alpha", .null)] } ∧
    (materialInfoAfterParse (fun _ => true)
        { instanceTechnique :=
            some { technique := some "lambert" } }).technique =
      some "lambert" := by
  constructor
  · exact parseMaterials_descriptor_mutation.1 (fun _ => true)
      ({ values := [("alpha", .null)] }) rfl (by simp)
  · exact (parseMaterials_descriptor_mutation.2.1 (fun _ => true)
      ({ instanceTechnique := some { technique := some "lambert" } })
      ({ technique := some "lambert" }) "lambert" rfl rfl).2

/-- Modelled from the spec: the standard axis-angle-to-quaternion
construction used at GLTF.js:978 (`quat.setAxisAngle` of the vendored
glmatrix dependency, which is not under `src/`): halve the angle, scale
the axis by its sine, and take its cosine as the scalar part.  The source
call aliases `out` and `axis` (both `quatTmp`), which is harmless because
each component is read before the only write to it. -/
noncomputable def setAxisAngle (axis : ℝ × ℝ × ℝ) (rad : ℝ) : ℝ × ℝ × ℝ × ℝ :=
  let r := rad * 0.5
  let s := Real.sin r
  (s * axis.1, s * axis.2.1, s * axis.2.2, Real.cos r)

/-- One flat-array entry of the converted rotation channel: entry `j`
belongs to sample `i = j / 4` and is the `(j % 4)`-th component of the
quaternion built from that sample's axis (entries `4i..4i+2`) and angle
(entry `4i+3`) (GLTF.js:973-982). -/
noncomputable def convertRotationEntry (r : List ℝ) (j : Nat) : ℝ :=
  let i := j / 4
  let q := setAxisAngle
    (r.getD (4 * i) 0, r.getD (4 * i + 1) 0, r.getD (4 * i + 2) 0)
    (r.getD (4 * i + 3) 0)
  match j % 4 with
  | 0 => q.1
  | 1 => q.2.1
  | 2 => q.2.2.1
  | _ => q.2.2.2

/-- The conversion loop of GLTF.js:971-984, run when the track has a
rotation parameter: every `TIME` sample is multiplied by 1000, and the
rotation samples indexed by the `TIME` indices are converted in place from
axis-angle to quaternion.  Each loop iteration reads the four entries of
its own sample before writing them and distinct iterations touch disjoint
entries, so the in-place update equals this index-wise map; entries beyond
`4 * TIME.length` are left unchanged. -/
noncomputable def convertAnimationTrack (time r : List ℝ) :
    List ℝ × List ℝ :=
  (time.map (fun t => t * 1000),
   (List.range r.length).map (fun j =>
     if j / 4 < time.length then convertRotationEntry r j
     else r.getD j 0))

theorem convertAnimationTrack_time (time r : List ℝ) :
    (convertAnimationTrack time r).1 = time.map (fun t => t * 1000) := rfl

theorem convertAnimationTrack_entry (time r : List ℝ) (j : Nat)
    (hj : j < r.length) (hjt : j / 4 < time.length) :
    (convertAnimationTrack time r).2.getD j 0 = convertRotationEntry r j := by
  simp [convertAnimationTrack, List.getD_eq_getElem?_getD,
    List.getElem?_range hj, hjt]

theorem convertRotationEntry_at (r : List ℝ) (i k : Nat) (hk : k < 4) :
    convertRotationEntry r (4 * i + k) =
      (match k with
       | 0 => (setAxisAngle
           (r.getD (4 * i) 0, r.getD (4 * i + 1) 0, r.getD (4 * i + 2) 0)
           (r.getD (4 * i + 3) 0)).1
       | 1 => (setAxisAngle
           (r.getD (4 * i) 0, r.getD (4 * i + 1) 0, r.getD (4 * i + 2) 0)
           (r.getD (4 * i + 3) 0)).2.1
       | 2 => (setAxisAngle
           (r.getD (4 * i) 0, r.getD (4 * i + 1) 0, r.getD (4 * i + 2) 0)
           (r.getD (4 * i + 3) 0)).2.2.1
       | _ => (setAxisAngle
           (r.getD (4 * i) 0, r.getD (4 * i + 1) 0, r.getD (4 * i + 2) 0)
           (r.getD (4 * i + 3) 0)).2.2.2) := by
  have hdiv : (4 * i + k) / 4 = i := by omega
  have hmod : (4 * i + k) % 4 = k := by omega
  interval_cases k <;> simp [convertRotationEntry, hdiv, hmod]

/-- C4: for a track with a rotation parameter, every time sample is
multiplied by 1000, and each 4-component rotation sample (axis in the
first three entries, angle in radians in the fourth) is converted in place
to the quaternion of the standard axis-angle construction; in particular
axis `[0,0,1]` with angle `π` yields `(0, 0, 1, 0)` within `1e-5`. -/
theorem parseAnimations_axis_angle_conversion :
    (∀ (time r : List ℝ),
        (convertAnimationTrack time r).1 = time.map (fun t => t * 1000)) ∧
    (∀ (time r : List ℝ) (i : Nat), i < time.length →
        4 * i + 4 ≤ r.length →
        ((convertAnimationTrack time r).2.getD (4 * i) 0,
         (convertAnimationTrack time r).2.getD (4 * i + 1) 0,
         (convertAnimationTrack time r).2.getD (4 * i + 2) 0,
         (convertAnimationTrack time r).2.getD (4 * i + 3) 0) =
          setAxisAngle
            (r.getD (4 * i) 0, r.getD (4 * i + 1) 0, r.getD (4 * i + 2) 0)
            (r.getD (4 * i + 3) 0)) ∧
    (|(setAxisAngle (0, 0, 1) Real.pi).1| ≤ 1e-5 ∧
     |(setAxisAngle (0, 0, 1) Real.pi).2.1| ≤ 1e-5 ∧
     |(setAxisAngle (0, 0, 1) Real.pi).2.2.1 - 1| ≤ 1e-5 ∧
     |(setAxisAngle (0, 0, 1) Real.pi).2.2.2| ≤ 1e-5) := by
  refine ⟨convertAnimationTrack_time, ?_, ?_⟩
  · intro time r i hi hr
    have e0 := convertAnimationTrack_entry time r (4 * i) (by omega) (by omega)
    have e1 := convertAnimationTrack_entry time r (4 * i + 1) (by omega) (by omega)
    have e2 := convertAnimationTrack_entry time r (4 * i + 2) (by omega) (by omega)
    have e3 := convertAnimationTrack_entry time r (4 * i + 3) (by omega) (by omega)
    have a0 := convertRotationEntry_at r i 0 (by omega)
    have a1 := convertRotationEntry_at r i 1 (by omega)
    have a2 := convertRotationEntry_at r i 2 (by omega)
    have a3 := convertRotationEntry_at r i 3 (by omega)
    simp only [Nat.add_zero] at a0
    rw [e0, e1, e2, e3, a0, a1, a2, a3]
  · have hhalf : Real.pi * 0.5 = Real.pi / 2 := by ring
    refine ⟨?_, ?_, ?_, ?_⟩ <;>
      simp [setAxisAngle, hhalf, Real.sin_pi_div_two, Real.cos_pi_div_two] <;>
      norm_num

/-- Witness for C4 at a one-sample track with a concrete rotation. -/
theorem parseAnimations_axis_angle_conversion_witness :
    ((convertAnimationTrack [0] [2, 3, 4, 5]).2.getD 0 0,
     (convertAnimationTrack [0] [2, 3, 4, 5]).2.getD 1 0,
     (convertAnimationTrack [0] [2, 3, 4, 5]).2.getD 2 0,
     (convertAnimationTrack [0] [2, 3, 4, 5]).2.getD 3 0) =
      setAxisAngle
        (([2, 3, 4, 5] : List ℝ).getD 0 0, ([2, 3, 4, 5] : List ℝ).getD 1 0,
         ([2, 3, 4, 5] : List ℝ).getD 2 0)
        (([2, 3, 4, 5] : List ℝ).getD 3 0) := by
  have h := parseAnimations_axis_angle_conversion.2.1 [0] [2, 3, 4, 5] 0
    (by norm_num) (by norm_num)
  simpa using h

/-- One animation track (`json.animations[...]`) with its decoded
parameters: the target ids of its channels, and the decoded `TIME`,
rotation, translation and scale parameter arrays (`none` = the parameter
is not declared) (GLTF.js:931-957). -/
structure AnimationTrack where
  channelTargets : List String := []
  time : Option (List ℝ) := none
  rotation : Option (List ℝ) := none
  translation : Option (List ℝ) := none
  scale : Option (List ℝ) := none

/-- A `SamplerClip` as filled in at GLTF.js:991-1000: target node id,
channel arrays, and `life` (`none` models the JS `undefined` read
`TIME[TIME.length - 1]` on an empty array). -/
structure SamplerClipModel where
  target : String
  time : List ℝ
  rotation : Option (List ℝ) := none
  position : Option (List ℝ) := none
  scale : Option (List ℝ) := none
  life : Option ℝ := none

/-- One iteration of the `_parseAnimations` loop (GLTF.js:959-1000): a
track without a `TIME` parameter or with no channels is skipped
(`continue`); otherwise the time/rotation conversion runs when a rotation
parameter is present, and the clip is stored under the first channel's
target id, replacing any clip already there. -/
noncomputable def processAnimationTrack
    (clips : String → Option SamplerClipModel) (t : AnimationTrack) :
    String → Option SamplerClipModel :=
  match t.time with
  | none => clips
  | some timeArr =>
    match t.channelTargets with
    | [] => clips
    | targetId :: _ =>
      let converted : List ℝ × Option (List ℝ) :=
        match t.rotation with
        | some r =>
            ((convertAnimationTrack timeArr r).1,
             some (convertAnimationTrack timeArr r).2)
        | none => (timeArr, none)
      let clip : SamplerClipModel :=
        { target := targetId, time := converted.1,
          rotation := converted.2, position := t.translation,
          scale := t.scale, life := converted.1.getLast? }
      fun id => if id = targetId then some clip else clips id

/-- The whole `_parseAnimations` pass: fold the tracks over an initially
empty clip table (`var nodeAnimationClips = lib.clips = {}`). -/
noncomputable def parseAnimations (tracks : List AnimationTrack) :
    String → Option SamplerClipModel :=
  tracks.foldl processAnimationTrack (fun _ => none)

/-- C5: a track with no `TIME` parameter or an empty channels list leaves
the clip table unchanged; otherwise exactly one clip is stored, under the
first channel's target id (the table changes at no other id, and
reprocessing a later track with the same target id yields that later
track's clip regardless of what was stored), and the stored clip's
duration (`life`) is the final entry of its time array. -/
theorem parseAnimations_clip_table :
    (∀ (clips : String → Option SamplerClipModel) (t : AnimationTrack),
        t.time = none ∨ t.channelTargets = [] →
        processAnimationTrack clips t = clips) ∧
    (∀ (clips : String → Option SamplerClipModel) (t : AnimationTrack)
        (timeArr : List ℝ) (targetId : String) (rest : List String),
        t.time = some timeArr → t.channelTargets = targetId :: rest →
        ∃ clip : SamplerClipModel,
          (∀ id, processAnimationTrack clips t id =
            if id = targetId then some clip else clips id) ∧
          clip.target = targetId ∧
          clip.life = clip.time.getLast? ∧
          ∀ hne : clip.time ≠ [], clip.life = some (clip.time.getLast hne)) ∧
    (∀ (clips : String → Option SamplerClipModel) (t t' : AnimationTrack)
        (timeArr timeArr' : List ℝ) (targetId : String)
        (rest rest' : List String),
        t.time = some timeArr → t.channelTargets = targetId :: rest →
        t'.time = some timeArr' → t'.channelTargets = targetId :: rest' →
        processAnimationTrack (processAnimationTrack clips t) t' targetId =
          processAnimationTrack clips t' targetId) := by
  refine ⟨?_, ?_, ?_⟩
  · intro clips t h
    rcases h with h | h <;> cases htime : t.time <;>
      simp [processAnimationTrack, h, htime]
  · intro clips t timeArr targetId rest ht hch
    cases hrot : t.rotation with
    | none =>
        refine ⟨⟨targetId, timeArr, none, t.translation, t.scale,
          timeArr.getLast?⟩, ?_, rfl, rfl, ?_⟩
        · intro id
          simp [processAnimationTrack, ht, hch, hrot]
        · intro hne
          exact List.getLast?_eq_getLast _ hne
    | some r =>
        refine ⟨⟨targetId, (convertAnimationTrack timeArr r).1,
          some (convertAnimationTrack timeArr r).2, t.translation, t.scale,
          (convertAnimationTrack timeArr r).1.getLast?⟩, ?_, rfl, rfl, ?_⟩
        · intro id
          simp [processAnimationTrack, ht, hch, hrot]
        · intro hne
          exact List.getLast?_eq_getLast _ hne
  · intro clips t t' timeArr timeArr' targetId rest rest' ht hch ht' hch'
    cases hrot' : t'.rotation <;>
      simp [processAnimationTrack, ht', hch', hrot']

/-- Witness for C5: a skipped track (no `TIME`), and a stored track with
a two-sample time array and no rotation. -/
theorem parseAnimations_clip_table_witness :
    processAnimationTrack (fun _ => none)
        { channelTargets := ["nodeA"] } = (fun _ => none) ∧
    ∃ clip : SamplerClipModel,
      (∀ id, processAnimationTrack (fun _ => none)
          { channelTargets := ["nodeA"], time := some [1, 2] } id =
        if id = "nodeA" then some clip else none) ∧
      clip.target = "nodeA" ∧
      clip.life = clip.time.getLast? ∧
      ∀ hne : clip.time ≠ [], clip.life = some (clip.time.getLast hne) := by
  constructor
  · exact parseAnimations_clip_table.1 (fun _ => none)
      ({ channelTargets := ["nodeA"] }) (Or.inl rfl)
  · obtain ⟨clip, h1, h2, h3, h4⟩ := parseAnimations_clip_table.2.1
      (fun _ => none) ({ channelTargets := ["nodeA"], time := some [1, 2] })
      [1, 2] "nodeA" [] rfl rfl
    exact ⟨clip, fun id => h1 id, h2, h3, h4⟩

end GLTF
